import Mathlib

set_option maxRecDepth 100000
set_option linter.unnecessarySeqFocus false

/-!
Verification of the scheduled-payment lifecycle engine of the
Arc-USDC-Payment repository.

The development shallowly embeds the parts of the JavaScript source that
the specification's claims are about:

* `calculateNextExecutionDate` (src/agents/ai-orchestrator.js, lines 744-766):
  recurrence arithmetic performed with JavaScript `Date` setters, which
  normalize out-of-range fields by carrying them forward (ECMAScript
  `MakeDay`), never by clamping.
* `updateAfterExecution` (src/agents/ai-orchestrator.js, lines 798-873):
  the post-execution state updater.
* the balance-sufficiency step of `ExecutionEngine.execute`
  (execution engine source, lines 114-156).
* `evaluateCondition` and `executeScheduledPayment` (src/scheduler.js).

Dates are modelled as civil (year, month, day) triples with months 0-11 as
in JavaScript; a `Timestamp` adds the milliseconds elapsed within the day.
JavaScript `Date` field setters are modelled through `jsMakeDay`, which is
ECMAScript's MakeDay: normalize the month into the year, take the first
day of the resulting month, and add `day - 1` calendar days.
-/

/-- Civil date with JavaScript conventions: `month` ranges over 0..11. -/
structure CivilDate where
  year : Int
  month : Nat
  day : Nat
  deriving Repr, DecidableEq

/-- Gregorian leap-year test (as JavaScript's Date implements it). -/
def isLeapYear (y : Int) : Bool :=
  (y % 4 == 0 && y % 100 != 0) || (y % 400 == 0)

/-- Number of days of month `m` (0-based) of year `y`. -/
def daysInMonth (y : Int) (m : Nat) : Nat :=
  match m with
  | 0 => 31
  | 1 => if isLeapYear y then 29 else 28
  | 2 => 31
  | 3 => 30
  | 4 => 31
  | 5 => 30
  | 6 => 31
  | 7 => 31
  | 8 => 30
  | 9 => 31
  | 10 => 30
  | _ => 31

/-- A civil triple denotes an actual calendar day. -/
def CivilDate.valid (d : CivilDate) : Prop :=
  d.month < 12 ∧ 1 ≤ d.day ∧ d.day ≤ daysInMonth d.year d.month

instance (d : CivilDate) : Decidable d.valid := by
  unfold CivilDate.valid; infer_instance

/-- Successor day in the civil calendar. -/
def nextDay (d : CivilDate) : CivilDate :=
  if d.day < daysInMonth d.year d.month then ⟨d.year, d.month, d.day + 1⟩
  else if d.month < 11 then ⟨d.year, d.month + 1, 1⟩
  else ⟨d.year + 1, 0, 1⟩

/-- Advance a civil date by `n` calendar days. -/
def addDays (d : CivilDate) : Nat → CivilDate
  | 0 => d
  | n + 1 => nextDay (addDays d n)

/-- ECMAScript MakeDay: fold the (possibly out-of-range) month into the
year, start from the first of that month and walk `day - 1` days forward.
All call sites in the source pass `day ≥ 1`. -/
def jsMakeDay (y : Int) (m : Int) (day : Nat) : CivilDate :=
  addDays ⟨y + m.fdiv 12, (m.emod 12).toNat, 1⟩ (day - 1)

/-- JavaScript `d.setDate(newDay)`. -/
def jsSetDate (d : CivilDate) (newDay : Nat) : CivilDate :=
  jsMakeDay d.year (d.month : Int) newDay

/-- JavaScript `d.setMonth(newMonth)`. -/
def jsSetMonth (d : CivilDate) (newMonth : Int) : CivilDate :=
  jsMakeDay d.year newMonth d.day

/-- JavaScript `d.setFullYear(newYear)`. -/
def jsSetFullYear (d : CivilDate) (newYear : Int) : CivilDate :=
  jsMakeDay newYear (d.month : Int) d.day

/-- ASCII lowercase conversion of a character, as JavaScript
`toLowerCase` acts on the ASCII frequency strings used here. -/
def asciiLower (c : Char) : Char :=
  if c.isUpper then Char.ofNat (c.toNat + 32) else c

/-- JavaScript `s.toLowerCase()` for ASCII strings. -/
def jsToLower (s : String) : String := String.mk (s.data.map asciiLower)

/-- Embedding of `calculateNextExecutionDate(frequency, fromDate)`
(src/agents/ai-orchestrator.js, lines 744-766), restricted to the date
part of the timestamp; the time of day is carried over unchanged by the
JavaScript setters and is handled at the `Timestamp` level below. -/
def calculateNextExecutionDate (frequency : String) (base : CivilDate) : CivilDate :=
  if jsToLower frequency = "daily" then jsSetDate base (base.day + 1)
  else if jsToLower frequency = "weekly" then jsSetDate base (base.day + 7)
  else if jsToLower frequency = "monthly" then jsSetMonth base ((base.month : Int) + 1)
  else if jsToLower frequency = "yearly" then jsSetFullYear base (base.year + 1)
  else jsSetDate base (base.day + 1)

/-- Year of the calendar month following that of `b`. -/
def nextMonthYear (b : CivilDate) : Int :=
  if b.month = 11 then b.year + 1 else b.year

/-- Month index (0-based) of the calendar month following that of `b`. -/
def nextMonthIdx (b : CivilDate) : Nat :=
  if b.month = 11 then 0 else b.month + 1

/-- Spec-side definition, following the specification's words rather than
the source: advancing by one calendar month clamps the day-of-month to the
last valid day of the target month ("one calendar month (clamped to valid
day-of-month)", spec section 4.3). Used only to compare against the
source-derived `calculateNextExecutionDate`. -/
def specClampedAddMonth (b : CivilDate) : CivilDate :=
  ⟨nextMonthYear b, nextMonthIdx b,
    min b.day (daysInMonth (nextMonthYear b) (nextMonthIdx b))⟩

/-- Timestamp: a civil date plus the milliseconds elapsed within that day.
JavaScript `Date` setters rewrite the date fields and keep the time of
day; epoch-millisecond addition (`Date.now() + delta`) carries whole days
into the date part. -/
structure Timestamp where
  date : CivilDate
  msOfDay : Nat
  deriving Repr, DecidableEq

/-- Milliseconds per day. -/
def msPerDay : Nat := 86400000

/-- JavaScript `new Date(t.getTime() + delta)` for `delta ≥ 0`. -/
def addMs (t : Timestamp) (delta : Nat) : Timestamp :=
  ⟨addDays t.date ((t.msOfDay + delta) / msPerDay), (t.msOfDay + delta) % msPerDay⟩

/-- The recurrence step lifted to timestamps: the JavaScript setters used
by `calculateNextExecutionDate` replace date fields and preserve the time
of day. -/
def calcNextTimestamp (frequency : String) (t : Timestamp) : Timestamp :=
  ⟨calculateNextExecutionDate frequency t.date, t.msOfDay⟩

/-- Strict chronological order on civil dates (lexicographic, which
agrees with epoch order on valid dates). -/
def CivilDate.before (a b : CivilDate) : Bool :=
  decide (a.year < b.year) ||
    (a.year == b.year &&
      (decide (a.month < b.month) || (a.month == b.month && decide (a.day < b.day))))

/-- Strict chronological order on timestamps, as JavaScript compares
`Date` values by epoch milliseconds. -/
def Timestamp.before (a b : Timestamp) : Bool :=
  CivilDate.before a.date b.date || (a.date == b.date && decide (a.msOfDay < b.msOfDay))

/-- JavaScript truthiness of a nullable string column: `null` and the
empty string are falsy. -/
def optStrTruthy : Option String → Bool
  | none => false
  | some s => s != ""

/-- Matching of `startsWithChars pat s`: the pattern is a leading run of `s`. -/
def startsWithChars : List Char → List Char → Bool
  | [], _ => true
  | _ :: _, [] => false
  | p :: ps, c :: cs => p == c && startsWithChars ps cs

/-- Occurrence of `pat` anywhere in the character list. -/
def containsChars (pat : List Char) : List Char → Bool
  | [] => startsWithChars pat []
  | c :: cs => startsWithChars pat (c :: cs) || containsChars pat cs

/-- JavaScript `s.includes(pat)`. -/
def containsSubstr (s pat : String) : Bool := containsChars pat.data s.data

/-- Row of the `scheduled_payments` table (src/agents/ai-orchestrator.js,
lines 504-522) with the columns the state updater reads. Nullable columns
are `Option`s; `execution_count` is kept optional to reproduce the
source's `payment.execution_count || 0` guard. -/
structure ScheduledPayment where
  user_id : Nat
  payment_type : String
  to_address : String
  amount : String
  frequency : Option String
  condition : Option String
  start_date : Option Timestamp
  end_date : Option Timestamp
  next_execution_date : Option Timestamp
  last_execution_date : Option Timestamp
  execution_count : Option Nat
  max_executions : Option Nat
  status : String
  deriving Repr, DecidableEq

/-- Guard `payment.max_executions && executionCount >= payment.max_executions`
of src/agents/ai-orchestrator.js line 811, including JavaScript falsiness
of a zero value. -/
def maxExecutionsReached (maxExec : Option Nat) (newCount : Nat) : Bool :=
  match maxExec with
  | some m => m != 0 && decide (m ≤ newCount)
  | none => false

/-- Guard `payment.end_date && new Date(now) > new Date(payment.end_date)`
of src/agents/ai-orchestrator.js line 854. -/
def endDatePassed (endDate : Option Timestamp) (now : Timestamp) : Bool :=
  match endDate with
  | some e => Timestamp.before e now
  | none => false

/-- Retry delay chosen on a non-executed conditional payment
(src/agents/ai-orchestrator.js line 837): five minutes when the error
message mentions an insufficient balance, one minute otherwise. -/
def retryDelayMs (errorMessage : Option String) : Nat :=
  match errorMessage with
  | some msg => if containsSubstr msg "Insufficient balance" then 300000 else 60000
  | none => 60000

/-- Fields written back by the UPDATE statement of `updateAfterExecution`
(src/agents/ai-orchestrator.js lines 860-870). -/
structure UpdateResult where
  last_execution_date : Option Timestamp
  next_execution_date : Option Timestamp
  execution_count : Nat
  status : String
  deriving Repr, DecidableEq

/-- Embedding of `updateAfterExecution(paymentId, executed, errorMessage,
transactionId)` (src/agents/ai-orchestrator.js lines 798-873), applied to
the row fetched for the payment id. `transactionId` is only logged by the
source and is omitted. -/
def updateAfterExecution (payment : ScheduledPayment) (executed : Bool)
    (errorMessage : Option String) (now : Timestamp) : UpdateResult :=
  let executionCount := payment.execution_count.getD 0 + (if executed then 1 else 0)
  let sn : String × Option Timestamp :=
    if maxExecutionsReached payment.max_executions executionCount then
      ("completed", none)
    else if payment.payment_type == "RECURRING" && optStrTruthy payment.frequency then
      if executed then ("active", some (calcNextTimestamp (payment.frequency.getD "") now))
      else ("active", some (addMs now 300000))
    else if payment.payment_type == "CONDITIONAL" then
      if executed then ("completed", none)
      else ("active", some (addMs now (retryDelayMs errorMessage)))
    else
      if executed then ("completed", none) else ("failed", none)
  let sn2 : String × Option Timestamp :=
    if endDatePassed payment.end_date now then ("completed", none) else sn
  { last_execution_date := if executed then some now else none
    next_execution_date := sn2.2
    execution_count := executionCount
    status := sn2.1 }

/-- Diagnostics attached to an insufficient-balance failure of the
Execution Engine (the `raw` map built at execution-engine source lines
149-154, whose values also appear in the error message): current balance,
requested amount and estimated gas cost in wei, and the maximum
transferable amount after gas (`balance.sub(estimatedGasCost)`, a
BigNumber difference that may be negative). -/
structure InsufficiencyDiagnostics where
  balance : Nat
  requested : Nat
  gasCost : Nat
  availableAfterGas : Int
  deriving Repr, DecidableEq

/-- Outcome of the balance-sufficiency step of `ExecutionEngine.execute`:
either the transaction is submitted (`sendTransaction` is reached) or the
engine returns an `ExecutionResult` with `success = false` and the
insufficiency diagnostics, submitting nothing. -/
structure SufficiencyDecision where
  submitted : Bool
  failure : Option InsufficiencyDiagnostics
  deriving Repr, DecidableEq

/-- Embedding of the sufficiency check of `ExecutionEngine.execute`
(execution-engine source lines 136-156): with all quantities in integer
wei, `totalRequired = amountWei.add(estimatedGasCost)` and the transfer
is aborted exactly when `balance.lt(totalRequired)`. -/
def sufficiencyStep (balanceWei amountWei gasCostWei : Nat) : SufficiencyDecision :=
  if balanceWei < amountWei + gasCostWei then
    ⟨false, some ⟨balanceWei, amountWei, gasCostWei,
      (balanceWei : Int) - (gasCostWei : Int)⟩⟩
  else ⟨true, none⟩

/-- Comparison operators accepted by the condition grammar
`/balance\s*(>=|>|<=|<)\s*(\d+\.?\d*)/i` of src/scheduler.js line 133. -/
inductive BalanceOp where
  | ge | gt | le | lt
  deriving Repr, DecidableEq

/-- The switch of src/scheduler.js lines 139-152 applied to the fetched
balance and the parsed threshold. -/
def applyBalanceOp (op : BalanceOp) (balance threshold : Rat) : Bool :=
  match op with
  | .ge => decide (balance ≥ threshold)
  | .gt => decide (balance > threshold)
  | .le => decide (balance ≤ threshold)
  | .lt => decide (balance < threshold)

/-- Greedy whitespace skip, the `\s*` of the condition pattern. -/
def dropWs : List Char → List Char
  | [] => []
  | c :: cs => if c.isWhitespace then dropWs cs else c :: cs

/-- Longest leading digit run, the `\d+` and `\d*` of the pattern. -/
def spanDigits : List Char → List Char × List Char
  | [] => ([], [])
  | c :: cs =>
    if c.isDigit then
      let (ds, rest) := spanDigits cs
      (c :: ds, rest)
    else ([], c :: cs)

/-- The alternation `(>=|>|<=|<)` of the pattern, in source order. -/
def parseOpChars : List Char → Option (BalanceOp × List Char)
  | '>' :: '=' :: rest => some (.ge, rest)
  | '>' :: rest => some (.gt, rest)
  | '<' :: '=' :: rest => some (.le, rest)
  | '<' :: rest => some (.lt, rest)
  | _ => none

/-- Case-insensitive match of a lowercase word at the head of the input,
returning the remainder on success. -/
def matchWordCI : List Char → List Char → Option (List Char)
  | [], rest => some rest
  | _ :: _, [] => none
  | w :: ws, c :: cs => if asciiLower c == w then matchWordCI ws cs else none

/-- Numeric value of a digit run. -/
def digitsToNat (ds : List Char) : Nat :=
  ds.foldl (fun acc c => acc * 10 + (c.toNat - 48)) 0

/-- Value of the matched threshold text `ip.fp` as parsed by
`parseFloat`, represented exactly. -/
def decimalValue (ip fp : List Char) : Rat :=
  mkRat (digitsToNat (ip ++ fp)) (10 ^ fp.length)

/-- Match of the full pattern `balance\s*(>=|>|<=|<)\s*(\d+\.?\d*)` at
the head of the input. -/
def matchPredicateAt (cs : List Char) : Option (BalanceOp × Rat) :=
  match matchWordCI ['b', 'a', 'l', 'a', 'n', 'c', 'e'] cs with
  | none => none
  | some rest1 =>
    match parseOpChars (dropWs rest1) with
    | none => none
    | some (op, rest2) =>
      match spanDigits (dropWs rest2) with
      | ([], _) => none
      | (ip, rest3) =>
        match rest3 with
        | '.' :: rest4 => some (op, decimalValue ip (spanDigits rest4).1)
        | _ => some (op, decimalValue ip [])

/-- Leftmost match of the condition pattern anywhere in the string, as
`condition.match(regex)` finds it. -/
def scanForPredicate : List Char → Option (BalanceOp × Rat)
  | [] => none
  | c :: cs =>
    match matchPredicateAt (c :: cs) with
    | some r => some r
    | none => scanForPredicate cs

/-- Row of the `users` table as far as the scheduler reads it. -/
structure UserRow where
  wallet_address : Option String
  deriving Repr, DecidableEq

/-- Embedding of `evaluateCondition(condition, userId)` (src/scheduler.js
lines 109-165). The database lookup is abstracted by the `user` argument
and the balance RPC by `balanceFetch`, where `none` stands for a thrown
lookup or network error, which the source catches and converts to
`false`; the fetched balance is the exact decimal produced by
`formatUnits`. -/
def evaluateCondition (condition : Option String) (user : Option UserRow)
    (balanceFetch : Option Rat) : Bool :=
  match condition with
  | none => false
  | some c =>
    if c = "" then false
    else
      match user with
      | none => false
      | some u =>
        match u.wallet_address with
        | none => false
        | some w =>
          if w = "" then false
          else
            match balanceFetch with
            | none => false
            | some bal =>
              match scanForPredicate c.data with
              | some (op, thr) => applyBalanceOp op bal thr
              | none => false

/-- Result of `dbHelpers.getAutoPayStatus` (src/database.js lines
679-686): null when the user row is missing, otherwise the enabled flag
and the nullable encrypted key. -/
structure AutoPayStatus where
  enabled : Bool
  encryptedPrivateKey : Option String
  deriving Repr, DecidableEq

/-- Negation of the guard `!autoPayStatus || !autoPayStatus.enabled ||
!autoPayStatus.encryptedPrivateKey` of src/scheduler.js line 33, with
JavaScript falsiness of a null or empty key. -/
def autoPayUsable : Option AutoPayStatus → Bool
  | none => false
  | some ap => ap.enabled && optStrTruthy ap.encryptedPrivateKey

/-- JavaScript `o || dflt` on a nullable string. -/
def jsOrStr (o : Option String) (dflt : String) : String :=
  match o with
  | some s => if s = "" then dflt else s
  | none => dflt

/-- Result of `executionEngine.verifyBalance` as the scheduler reads it. -/
structure BalanceCheckResult where
  success : Bool
  isSufficient : Bool
  error : Option String
  deriving Repr, DecidableEq

/-- Result of `executionEngine.execute` as the scheduler reads it. -/
structure EngineResult where
  success : Bool
  transactionId : Option String
  error : Option String
  deriving Repr, DecidableEq

/-- Collaborator responses observed by one run of
`executeScheduledPayment`: the user lookup, the autopay lookup, whether
the key decryption succeeds, and the results the two network calls would
produce if reached. -/
structure SchedulerEnv where
  user : Option UserRow
  autoPay : Option AutoPayStatus
  decryptOk : Bool
  balanceCheck : BalanceCheckResult
  engineResult : EngineResult
  deriving Repr, DecidableEq

/-- Observable outcome of `executeScheduledPayment`: the returned flag,
the `(executed, errorMessage)` pair passed to `updateAfterExecution`, and
whether any blockchain call (`verifyBalance` or `execute`) was reached. -/
structure SchedulerOutcome where
  returned : Bool
  updateExecuted : Bool
  updateError : Option String
  blockchainCalled : Bool
  deriving Repr, DecidableEq

/-- Embedding of `executeScheduledPayment(scheduledPayment)`
(src/scheduler.js lines 19-76) over the collaborator responses. -/
def executeScheduledPayment (env : SchedulerEnv) : SchedulerOutcome :=
  match env.user with
  | none => ⟨false, false, some "User or wallet not found", false⟩
  | some u =>
    if optStrTruthy u.wallet_address = false then
      ⟨false, false, some "User or wallet not found", false⟩
    else if autoPayUsable env.autoPay = false then
      ⟨false, false, some "Automatic payments not enabled", false⟩
    else if env.decryptOk = false then
      ⟨false, false, some "Failed to decrypt private key", false⟩
    else if env.balanceCheck.success = false ∨ env.balanceCheck.isSufficient = false then
      ⟨false, false,
        some ("Insufficient balance: " ++ jsOrStr env.balanceCheck.error "Balance check failed"),
        true⟩
    else if env.engineResult.success then
      ⟨true, true, none, true⟩
    else
      ⟨false, false, env.engineResult.error, true⟩

theorem addDays_add (x : CivilDate) (a b : Nat) :
    addDays x (a + b) = addDays (addDays x a) b := by
  induction b with
  | zero => rfl
  | succ n ih => rw [show a + (n + 1) = (a + n) + 1 from rfl, addDays, ih, addDays]

theorem addDays_same_month (y : Int) (m : Nat) (d k : Nat)
    (h2 : d + k ≤ daysInMonth y m) :
    addDays ⟨y, m, d⟩ k = ⟨y, m, d + k⟩ := by
  induction k with
  | zero => rfl
  | succ n ih =>
    have hn : d + n ≤ daysInMonth y m := by omega
    rw [addDays, ih hn]
    have hlt : d + n < daysInMonth y m := by omega
    simp [nextDay, hlt]
    omega

theorem month_fdiv_emod (m : Nat) (hm : m < 12) :
    ((m : Int).fdiv 12 = 0) ∧ (((m : Int).emod 12).toNat = m) := by
  interval_cases m <;> exact ⟨by decide, by decide⟩

theorem jsSetDate_as_addDays (b : CivilDate) (hb : b.valid) (k : Nat) :
    jsSetDate b (b.day + k) = addDays b k := by
  obtain ⟨hm, hd1, hd2⟩ := hb
  obtain ⟨hf, he⟩ := month_fdiv_emod b.month hm
  unfold jsSetDate jsMakeDay
  rw [hf, he, add_zero]
  have hsplit : b.day + k - 1 = (b.day - 1) + k := by omega
  rw [hsplit, addDays_add]
  have hfirst : addDays ⟨b.year, b.month, 1⟩ (b.day - 1) = ⟨b.year, b.month, b.day⟩ := by
    have := addDays_same_month b.year b.month 1 (b.day - 1) (by omega)
    rwa [show 1 + (b.day - 1) = b.day from by omega] at this
  rw [hfirst]

theorem month_succ_fdiv_emod (m : Nat) (hm : m < 12) :
    (((m : Int) + 1).fdiv 12 = if m = 11 then 1 else 0) ∧
    ((((m : Int) + 1).emod 12).toNat = if m = 11 then 0 else m + 1) := by
  interval_cases m <;> exact ⟨by decide, by decide⟩

theorem jsSetMonth_succ (b : CivilDate) (hb : b.valid) :
    jsSetMonth b ((b.month : Int) + 1) =
      addDays ⟨nextMonthYear b, nextMonthIdx b, 1⟩ (b.day - 1) := by
  obtain ⟨hm, hd1, hd2⟩ := hb
  obtain ⟨hf, he⟩ := month_succ_fdiv_emod b.month hm
  unfold jsSetMonth jsMakeDay nextMonthYear nextMonthIdx
  rw [hf, he]
  by_cases h : b.month = 11 <;> simp [h]

theorem jsSetMonth_fit (b : CivilDate) (hb : b.valid)
    (hfit : b.day ≤ daysInMonth (nextMonthYear b) (nextMonthIdx b)) :
    jsSetMonth b ((b.month : Int) + 1) = ⟨nextMonthYear b, nextMonthIdx b, b.day⟩ := by
  rw [jsSetMonth_succ b hb]
  have hd1 : 1 ≤ b.day := hb.2.1
  have := addDays_same_month (nextMonthYear b) (nextMonthIdx b) 1 (b.day - 1) (by omega)
  rwa [show 1 + (b.day - 1) = b.day from by omega] at this

theorem jsSetFullYear_fit (b : CivilDate) (hb : b.valid)
    (hfit : b.day ≤ daysInMonth (b.year + 1) b.month) :
    jsSetFullYear b (b.year + 1) = ⟨b.year + 1, b.month, b.day⟩ := by
  obtain ⟨hm, hd1, hd2⟩ := hb
  obtain ⟨hf, he⟩ := month_fdiv_emod b.month hm
  unfold jsSetFullYear jsMakeDay
  rw [hf, he, add_zero]
  have := addDays_same_month (b.year + 1) b.month 1 (b.day - 1) (by omega)
  rwa [show 1 + (b.day - 1) = b.day from by omega] at this

/-- Claim C6 (amended): for every base date and frequency, the
recurrence-arithmetic function adds one day for daily, seven days for
weekly and one day for every unrecognized frequency; for monthly it moves
to the first day of the next calendar month and walks forward
`day - 1` days, which coincides with the same day-of-month one month later
whenever that day exists in the target month but overflows into the
following month instead of clamping otherwise; for yearly it yields the
same day and month of the next year whenever that day exists. -/
theorem recurrence_one_calendar_unit (f : String) (b : CivilDate) (hb : b.valid) :
    (jsToLower f = "daily" → calculateNextExecutionDate f b = addDays b 1) ∧
    (jsToLower f = "weekly" → calculateNextExecutionDate f b = addDays b 7) ∧
    (jsToLower f = "monthly" →
      calculateNextExecutionDate f b =
        addDays ⟨nextMonthYear b, nextMonthIdx b, 1⟩ (b.day - 1)) ∧
    (jsToLower f = "monthly" → b.day ≤ daysInMonth (nextMonthYear b) (nextMonthIdx b) →
      calculateNextExecutionDate f b = ⟨nextMonthYear b, nextMonthIdx b, b.day⟩) ∧
    (jsToLower f = "yearly" → b.day ≤ daysInMonth (b.year + 1) b.month →
      calculateNextExecutionDate f b = ⟨b.year + 1, b.month, b.day⟩) ∧
    (jsToLower f ∉ (["daily", "weekly", "monthly", "yearly"] : List String) →
      calculateNextExecutionDate f b = addDays b 1) := by
  refine ⟨?_, ?_, ?_, ?_, ?_, ?_⟩
  · intro h
    unfold calculateNextExecutionDate
    rw [h, if_pos rfl]
    exact jsSetDate_as_addDays b hb 1
  · intro h
    unfold calculateNextExecutionDate
    rw [h, if_neg (by decide), if_pos rfl]
    exact jsSetDate_as_addDays b hb 7
  · intro h
    unfold calculateNextExecutionDate
    rw [h, if_neg (by decide), if_neg (by decide), if_pos rfl]
    exact jsSetMonth_succ b hb
  · intro h hfit
    unfold calculateNextExecutionDate
    rw [h, if_neg (by decide), if_neg (by decide), if_pos rfl]
    exact jsSetMonth_fit b hb hfit
  · intro h hfit
    unfold calculateNextExecutionDate
    rw [h, if_neg (by decide), if_neg (by decide), if_neg (by decide), if_pos rfl]
    exact jsSetFullYear_fit b hb hfit
  · intro h
    simp only [List.mem_cons, List.not_mem_nil, or_false, not_or] at h
    obtain ⟨h1, h2, h3, h4⟩ := h
    unfold calculateNextExecutionDate
    rw [if_neg h1, if_neg h2, if_neg h3, if_neg h4]
    exact jsSetDate_as_addDays b hb 1

/-- Concrete instantiation of `recurrence_one_calendar_unit` at a weekly
payment due on 2025-01-15. -/
theorem recurrence_one_calendar_unit_witness :
    calculateNextExecutionDate "weekly" ⟨2025, 0, 15⟩ = addDays ⟨2025, 0, 15⟩ 7 :=
  (recurrence_one_calendar_unit "weekly" ⟨2025, 0, 15⟩ (by decide)).2.1 (by decide)

/-- Claim C6, counterexample to the clamping clause: from 2025-01-31 the
source's monthly step lands on 2025-03-03, while clamping to a valid
day-of-month (the claim's wording) would give 2025-02-28. -/
theorem monthly_not_clamped_counterexample :
    calculateNextExecutionDate "monthly" ⟨2025, 0, 31⟩ = ⟨2025, 2, 3⟩ ∧
    specClampedAddMonth ⟨2025, 0, 31⟩ = ⟨2025, 1, 28⟩ ∧
    calculateNextExecutionDate "monthly" ⟨2025, 0, 31⟩ ≠ specClampedAddMonth ⟨2025, 0, 31⟩ :=
  ⟨by decide, by decide, by decide⟩

/-- Claim C1: for a RECURRING payment with a (truthy) frequency, when
neither the max-executions cap nor a passed end date applies, a call to
`updateAfterExecution` keeps the status active and sets the next
execution date to now advanced by one period of the frequency on success,
and to now plus five minutes on failure. -/
theorem recurring_update_after_execution
    (p : ScheduledPayment) (now : Timestamp) (executed : Bool)
    (err : Option String) (f : String)
    (ht : p.payment_type = "RECURRING") (hf : p.frequency = some f) (hf0 : f ≠ "")
    (hmax : maxExecutionsReached p.max_executions
      (p.execution_count.getD 0 + (if executed then 1 else 0)) = false)
    (hend : endDatePassed p.end_date now = false) :
    (updateAfterExecution p executed err now).status = "active" ∧
    (updateAfterExecution p executed err now).next_execution_date =
      some (if executed then calcNextTimestamp f now else addMs now 300000) := by
  cases executed <;>
    simp [updateAfterExecution, ht, hf, hf0, hmax, hend, optStrTruthy] at hmax hend ⊢ <;>
    simp [hmax, hend]

/-- Concrete instantiation of `recurring_update_after_execution`: a daily
recurring payment successfully executed at noon of 2025-01-15 is
rescheduled for noon of 2025-01-16 and stays active. -/
theorem recurring_update_after_execution_witness :
    (updateAfterExecution
        ⟨1, "RECURRING", "0xrecipient", "5", some "daily", none, none, none,
          none, none, some 0, none, "active"⟩
        true none ⟨⟨2025, 0, 15⟩, 43200000⟩).status = "active" ∧
    (updateAfterExecution
        ⟨1, "RECURRING", "0xrecipient", "5", some "daily", none, none, none,
          none, none, some 0, none, "active"⟩
        true none ⟨⟨2025, 0, 15⟩, 43200000⟩).next_execution_date =
      some ⟨⟨2025, 0, 16⟩, 43200000⟩ := by
  have h := recurring_update_after_execution
    ⟨1, "RECURRING", "0xrecipient", "5", some "daily", none, none, none,
      none, none, some 0, none, "active"⟩
    ⟨⟨2025, 0, 15⟩, 43200000⟩ true none "daily" rfl rfl (by decide) (by decide) (by decide)
  exact ⟨h.1, by rw [h.2]; decide⟩

/-- Claim C2: for a CONDITIONAL payment, when neither the max-executions
cap nor a passed end date applies, success completes the payment and
clears its next execution date, while failure keeps it active and
reschedules it five minutes later when the error message mentions an
insufficient balance and one minute later otherwise. -/
theorem conditional_update_after_execution
    (p : ScheduledPayment) (now : Timestamp) (executed : Bool) (err : Option String)
    (ht : p.payment_type = "CONDITIONAL")
    (hmax : maxExecutionsReached p.max_executions
      (p.execution_count.getD 0 + (if executed then 1 else 0)) = false)
    (hend : endDatePassed p.end_date now = false) :
    (updateAfterExecution p executed err now).status =
      (if executed then "completed" else "active") ∧
    (updateAfterExecution p executed err now).next_execution_date =
      (if executed then none else some (addMs now (retryDelayMs err))) := by
  cases executed <;>
    simp [updateAfterExecution, ht] at hmax hend ⊢ <;>
    simp [hmax, hend]

/-- Concrete instantiation of `conditional_update_after_execution`: a
conditional payment whose condition is not met ("Condition not met") is
kept active and rechecked one minute later. -/
theorem conditional_update_after_execution_witness :
    (updateAfterExecution
        ⟨1, "CONDITIONAL", "0xrecipient", "5", none, some "balance >= 10", none, none,
          none, none, some 0, none, "active"⟩
        false (some "Condition not met") ⟨⟨2025, 0, 15⟩, 0⟩).status = "active" ∧
    (updateAfterExecution
        ⟨1, "CONDITIONAL", "0xrecipient", "5", none, some "balance >= 10", none, none,
          none, none, some 0, none, "active"⟩
        false (some "Condition not met") ⟨⟨2025, 0, 15⟩, 0⟩).next_execution_date =
      some ⟨⟨2025, 0, 15⟩, 60000⟩ := by
  have h := conditional_update_after_execution
    ⟨1, "CONDITIONAL", "0xrecipient", "5", none, some "balance >= 10", none, none,
      none, none, some 0, none, "active"⟩
    ⟨⟨2025, 0, 15⟩, 0⟩ false (some "Condition not met") rfl (by decide) (by decide)
  exact ⟨by rw [h.1]; rfl, by rw [h.2]; decide⟩

/-- Claim C3: for a SINGLE payment, when neither the max-executions cap
nor a passed end date applies, `updateAfterExecution` marks it completed
on success and failed on failure; in both cases the next execution date
is null, so no retry is scheduled. -/
theorem single_update_after_execution
    (p : ScheduledPayment) (now : Timestamp) (executed : Bool) (err : Option String)
    (ht : p.payment_type = "SINGLE")
    (hmax : maxExecutionsReached p.max_executions
      (p.execution_count.getD 0 + (if executed then 1 else 0)) = false)
    (hend : endDatePassed p.end_date now = false) :
    (updateAfterExecution p executed err now).status =
      (if executed then "completed" else "failed") ∧
    (updateAfterExecution p executed err now).next_execution_date = none := by
  cases executed <;>
    simp [updateAfterExecution, ht] at hmax hend ⊢ <;>
    simp [hmax, hend]

/-- Concrete instantiation of `single_update_after_execution`: a failed
single payment becomes failed with no next execution date. -/
theorem single_update_after_execution_witness :
    (updateAfterExecution
        ⟨1, "SINGLE", "0xrecipient", "5", none, none, none, none,
          none, none, some 0, none, "active"⟩
        false (some "Insufficient balance") ⟨⟨2025, 0, 15⟩, 0⟩).status = "failed" ∧
    (updateAfterExecution
        ⟨1, "SINGLE", "0xrecipient", "5", none, none, none, none,
          none, none, some 0, none, "active"⟩
        false (some "Insufficient balance") ⟨⟨2025, 0, 15⟩, 0⟩).next_execution_date = none := by
  have h := single_update_after_execution
    ⟨1, "SINGLE", "0xrecipient", "5", none, none, none, none,
      none, none, some 0, none, "active"⟩
    ⟨⟨2025, 0, 15⟩, 0⟩ false (some "Insufficient balance") rfl (by decide) (by decide)
  exact ⟨by rw [h.1]; rfl, h.2⟩

/-- Claim C4: whenever a positive max-executions cap is stored and the
stored execution count plus this call's increment reaches it, the payment
is forced to completed with a null next execution date, whatever the
payment type and outcome. A stored cap is positive because the creation
path inserts `maxExecutions || null`, which turns a zero cap into NULL. -/
theorem max_executions_forces_completed
    (p : ScheduledPayment) (now : Timestamp) (executed : Bool) (err : Option String)
    (m : Nat) (hm : p.max_executions = some m) (h0 : 0 < m)
    (hc : m ≤ p.execution_count.getD 0 + (if executed then 1 else 0)) :
    (updateAfterExecution p executed err now).status = "completed" ∧
    (updateAfterExecution p executed err now).next_execution_date = none ∧
    (updateAfterExecution p executed err now).execution_count =
      p.execution_count.getD 0 + (if executed then 1 else 0) := by
  have hreach : maxExecutionsReached p.max_executions
      (p.execution_count.getD 0 + (if executed then 1 else 0)) = true := by
    rw [hm]
    simp [maxExecutionsReached, hc]
    omega
  by_cases hE : endDatePassed p.end_date now <;>
    simp [updateAfterExecution, hreach, hE]

/-- Concrete instantiation of `max_executions_forces_completed`: a
recurring payment with cap 3 and two prior executions is completed by its
third successful execution even though its frequency would continue it. -/
theorem max_executions_forces_completed_witness :
    (updateAfterExecution
        ⟨1, "RECURRING", "0xrecipient", "5", some "weekly", none, none, none,
          none, none, some 2, some 3, "active"⟩
        true none ⟨⟨2025, 0, 15⟩, 0⟩).status = "completed" ∧
    (updateAfterExecution
        ⟨1, "RECURRING", "0xrecipient", "5", some "weekly", none, none, none,
          none, none, some 2, some 3, "active"⟩
        true none ⟨⟨2025, 0, 15⟩, 0⟩).next_execution_date = none ∧
    (updateAfterExecution
        ⟨1, "RECURRING", "0xrecipient", "5", some "weekly", none, none, none,
          none, none, some 2, some 3, "active"⟩
        true none ⟨⟨2025, 0, 15⟩, 0⟩).execution_count = 3 := by
  have h := max_executions_forces_completed
    ⟨1, "RECURRING", "0xrecipient", "5", some "weekly", none, none, none,
      none, none, some 2, some 3, "active"⟩
    ⟨⟨2025, 0, 15⟩, 0⟩ true none 3 rfl (by decide) (by decide)
  exact ⟨h.1, h.2.1, by rw [h.2.2]; rfl⟩

/-- Claim C5: a stored end date lying strictly in the past at update time
forces every call of `updateAfterExecution`, for any payment type and
either outcome, to status completed with a null next execution date. -/
theorem end_date_forces_completed
    (p : ScheduledPayment) (now : Timestamp) (executed : Bool) (err : Option String)
    (e : Timestamp) (he : p.end_date = some e) (hlt : Timestamp.before e now = true) :
    (updateAfterExecution p executed err now).status = "completed" ∧
    (updateAfterExecution p executed err now).next_execution_date = none := by
  have hE : endDatePassed p.end_date now = true := by
    rw [he]; simpa [endDatePassed] using hlt
  simp [updateAfterExecution, hE]

/-- Concrete instantiation of `end_date_forces_completed`: a failed
single payment whose end date has passed is completed, not failed. -/
theorem end_date_forces_completed_witness :
    (updateAfterExecution
        ⟨1, "SINGLE", "0xrecipient", "5", none, none, none,
          some ⟨⟨2025, 0, 10⟩, 0⟩, none, none, some 0, none, "active"⟩
        false (some "Automatic payments not enabled") ⟨⟨2025, 0, 15⟩, 0⟩).status =
      "completed" ∧
    (updateAfterExecution
        ⟨1, "SINGLE", "0xrecipient", "5", none, none, none,
          some ⟨⟨2025, 0, 10⟩, 0⟩, none, none, some 0, none, "active"⟩
        false (some "Automatic payments not enabled")
        ⟨⟨2025, 0, 15⟩, 0⟩).next_execution_date = none :=
  end_date_forces_completed
    ⟨1, "SINGLE", "0xrecipient", "5", none, none, none,
      some ⟨⟨2025, 0, 10⟩, 0⟩, none, none, some 0, none, "active"⟩
    ⟨⟨2025, 0, 15⟩, 0⟩ false (some "Automatic payments not enabled")
    ⟨⟨2025, 0, 10⟩, 0⟩ rfl (by decide)

/-- Claim C9 (behavior of the source, contradicting the claim): the
UPDATE statement writes `executed ? now : null` into
`last_execution_date` (src/agents/ai-orchestrator.js line 870), so every
call with `executed = false` overwrites the stored timestamp of the last
successful execution with NULL instead of leaving it unchanged. -/
theorem failed_update_clears_last_execution_date
    (p : ScheduledPayment) (err : Option String) (now : Timestamp) :
    (updateAfterExecution p false err now).last_execution_date = none := by
  simp [updateAfterExecution]

/-- Claim C7: after validation, the transfer is submitted exactly when
the wei balance is at least the amount plus the estimated fee, so a
balance equal to `amount + fee` suffices and any smaller balance does
not; in the insufficient case nothing is submitted and the failure
carries the balance, the requested amount, the estimated fee and the
maximum transferable amount after the fee. -/
theorem sufficiency_closed_boundary (b a g : Nat) :
    ((sufficiencyStep b a g).submitted = true ↔ a + g ≤ b) ∧
    (b < a + g → sufficiencyStep b a g =
      ⟨false, some ⟨b, a, g, (b : Int) - (g : Int)⟩⟩) := by
  constructor
  · by_cases h : b < a + g <;> simp [sufficiencyStep, h] <;> omega
  · intro h
    simp [sufficiencyStep, h]

/-- Concrete instantiation of `sufficiency_closed_boundary` at the
boundary: a balance of exactly amount plus fee submits, one wei less
fails with the documented diagnostics. -/
theorem sufficiency_closed_boundary_witness :
    (sufficiencyStep 1000000 999000 1000).submitted = true ∧
    sufficiencyStep 999999 999000 1000 =
      ⟨false, some ⟨999999, 999000, 1000, 998999⟩⟩ :=
  ⟨(sufficiency_closed_boundary 1000000 999000 1000).1.mpr (by decide),
    by
      have h := (sufficiency_closed_boundary 999999 999000 1000).2 (by decide)
      rw [h]; decide⟩

/-- Claim C8: when a condition string contains a `balance <op> <threshold>`
predicate, the evaluator returns the operator applied to the fetched
balance and the threshold, provided the owner and a non-empty wallet were
found and the balance fetch succeeded; a null or empty condition, a string
without a predicate, a failed owner or wallet lookup, and a failed balance
fetch all evaluate to false. -/
theorem evaluate_condition_fail_closed :
    (∀ user bal, evaluateCondition none user bal = false) ∧
    (∀ user bal, evaluateCondition (some "") user bal = false) ∧
    (∀ c bal, evaluateCondition (some c) none bal = false) ∧
    (∀ c bal, evaluateCondition (some c) (some ⟨none⟩) bal = false) ∧
    (∀ c bal, evaluateCondition (some c) (some ⟨some ""⟩) bal = false) ∧
    (∀ c u, evaluateCondition (some c) u none = false) ∧
    (∀ c u bal, scanForPredicate c.data = none →
      evaluateCondition (some c) (some u) (some bal) = false) ∧
    (∀ c u w bal op thr, u.wallet_address = some w → w ≠ "" →
      scanForPredicate c.data = some (op, thr) →
      evaluateCondition (some c) (some u) (some bal) = applyBalanceOp op bal thr) := by
  refine ⟨fun user bal => rfl, fun user bal => rfl, ?_, ?_, ?_, ?_, ?_, ?_⟩
  · intro c bal
    by_cases hc : c = "" <;> simp [evaluateCondition, hc]
  · intro c bal
    by_cases hc : c = "" <;> simp [evaluateCondition, hc]
  · intro c bal
    by_cases hc : c = "" <;> simp [evaluateCondition, hc]
  · intro c u
    by_cases hc : c = "" <;>
      cases u with
      | none => simp [evaluateCondition, hc]
      | some v =>
        cases hw : v.wallet_address with
        | none => simp [evaluateCondition, hc, hw]
        | some w =>
          by_cases hw0 : w = "" <;> simp [evaluateCondition, hc, hw, hw0]
  · intro c u bal hscan
    by_cases hc : c = ""
    · simp [evaluateCondition, hc]
    · cases hw : u.wallet_address with
      | none => simp [evaluateCondition, hc, hw]
      | some w =>
        by_cases hw0 : w = "" <;> simp [evaluateCondition, hc, hw, hw0, hscan]
  · intro c u w bal op thr hw hw0 hscan
    have hc : c ≠ "" := by
      intro hce
      rw [hce] at hscan
      exact Option.noConfusion hscan
    simp [evaluateCondition, hc, hw, hw0, hscan]

/-- Concrete instantiation of `evaluate_condition_fail_closed` at the
specification's scenario: condition "balance >= 10" with a fetched
balance of 5 evaluates to false. -/
theorem evaluate_condition_fail_closed_witness :
    evaluateCondition (some "balance >= 10") (some ⟨some "0xwallet"⟩) (some 5) = false := by
  have h := evaluate_condition_fail_closed.2.2.2.2.2.2.2
    "balance >= 10" ⟨some "0xwallet"⟩ "0xwallet" 5 BalanceOp.ge (mkRat 10 1)
    rfl (by decide) (by decide)
  rw [h]; decide

/-- Claim C10, counterexample: the claim's consequent that a due SINGLE
payment of an owner without usable autopay always ends in status failed
is violated when the payment's end date has passed — the scheduler does
skip the blockchain and report the failure, but the updater then forces
status completed, not failed. -/
theorem autopay_disabled_single_counterexample :
    (executeScheduledPayment
        ⟨some ⟨some "0xwallet"⟩, none, true, ⟨true, true, none⟩,
          ⟨true, some "0xtx", none⟩⟩).blockchainCalled = false ∧
    (executeScheduledPayment
        ⟨some ⟨some "0xwallet"⟩, none, true, ⟨true, true, none⟩,
          ⟨true, some "0xtx", none⟩⟩).updateExecuted = false ∧
    (executeScheduledPayment
        ⟨some ⟨some "0xwallet"⟩, none, true, ⟨true, true, none⟩,
          ⟨true, some "0xtx", none⟩⟩).updateError =
      some "Automatic payments not enabled" ∧
    (updateAfterExecution
        ⟨1, "SINGLE", "0xrecipient", "5", none, none, none,
          some ⟨⟨2025, 0, 10⟩, 0⟩, some ⟨⟨2025, 0, 15⟩, 0⟩, none, some 0, none, "active"⟩
        false (some "Automatic payments not enabled")
        ⟨⟨2025, 0, 15⟩, 600000⟩).status = "completed" ∧
    ("completed" : String) ≠ "failed" := by
  refine ⟨by decide, by decide, by decide, by decide, by decide⟩

/-- Claim C10 (amended): when the owner exists with a non-empty wallet
but automatic payments are not usable (missing status row, disabled flag,
or missing encrypted key), the scheduler makes no blockchain call and
reports the attempt as a failure with error "Automatic payments not
enabled"; a due SINGLE payment of such an owner therefore becomes failed
with no retry, provided neither the max-executions cap nor a passed end
date applies (either of which would force completed instead). -/
theorem autopay_disabled_no_onchain_attempt
    (env : SchedulerEnv) (p : ScheduledPayment) (now : Timestamp)
    (u : UserRow) (w : String)
    (hu : env.user = some u) (hw : u.wallet_address = some w) (hw0 : w ≠ "")
    (hap : autoPayUsable env.autoPay = false) :
    (executeScheduledPayment env).blockchainCalled = false ∧
    (executeScheduledPayment env).updateExecuted = false ∧
    (executeScheduledPayment env).updateError = some "Automatic payments not enabled" ∧
    (p.payment_type = "SINGLE" →
      maxExecutionsReached p.max_executions (p.execution_count.getD 0) = false →
      endDatePassed p.end_date now = false →
      (updateAfterExecution p false (some "Automatic payments not enabled") now).status =
          "failed" ∧
      (updateAfterExecution p false
          (some "Automatic payments not enabled") now).next_execution_date = none) := by
  have henv : executeScheduledPayment env =
      ⟨false, false, some "Automatic payments not enabled", false⟩ := by
    unfold executeScheduledPayment
    rw [hu]
    simp [optStrTruthy, hw, hw0, hap]
  refine ⟨by rw [henv], by rw [henv], by rw [henv], ?_⟩
  intro ht hmax hend
  simp [updateAfterExecution, ht] at hmax hend ⊢
  simp [hmax, hend]

/-- Concrete instantiation of `autopay_disabled_no_onchain_attempt`: an
owner whose autopay row has the enabled flag cleared, with a due single
payment carrying no cap and no end date. -/
theorem autopay_disabled_no_onchain_attempt_witness :
    (executeScheduledPayment
        ⟨some ⟨some "0xwallet"⟩, some ⟨false, some "enckey"⟩, true,
          ⟨true, true, none⟩, ⟨true, some "0xtx", none⟩⟩).blockchainCalled = false ∧
    (updateAfterExecution
        ⟨1, "SINGLE", "0xrecipient", "5", none, none, none, none,
          some ⟨⟨2025, 0, 15⟩, 0⟩, none, some 0, none, "active"⟩
        false (some "Automatic payments not enabled")
        ⟨⟨2025, 0, 15⟩, 600000⟩).status = "failed" := by
  have h := autopay_disabled_no_onchain_attempt
    ⟨some ⟨some "0xwallet"⟩, some ⟨false, some "enckey"⟩, true,
      ⟨true, true, none⟩, ⟨true, some "0xtx", none⟩⟩
    ⟨1, "SINGLE", "0xrecipient", "5", none, none, none, none,
      some ⟨⟨2025, 0, 15⟩, 0⟩, none, some 0, none, "active"⟩
    ⟨⟨2025, 0, 15⟩, 600000⟩ ⟨some "0xwallet"⟩ "0xwallet"
    rfl rfl (by decide) (by decide)
  exact ⟨h.1, (h.2.2.2 rfl (by decide) (by decide)).1⟩
